import Mathlib

/-!
Verification of the xcresult-to-HTML conversion pipeline
(`xcresult_gui_v6.py`): the JSON count normalizer (`extract_counts` /
`deep_iter`), the detail extractor (`_extract_details_from_summary`),
the HTML renderer (`build_html`), and the orchestration entry point
(`_process_xcresult_to_html`).

The parsed JSON document is modelled as the inductive `JVal`
(JSON numbers restricted to integers, which is the shape the external
summarization tool emits for test counts); Python dictionaries become
insertion-ordered association lists, which matches Python 3 dict
iteration order and key uniqueness.  Python truthiness (`x or 0`) and
`int(...)` coercion are modelled explicitly by `falsy` / `toIntPy?`.
-/

/-- A parsed JSON document (`RawDocument`). -/
inductive JVal where
  | null : JVal
  | bool (b : Bool) : JVal
  | int (n : Int) : JVal
  | str (s : String) : JVal
  | arr (xs : List JVal) : JVal
  | obj (kvs : List (String × JVal)) : JVal
deriving Repr, Inhabited

/-- `d.get(k)` on a Python dict: the value stored at `k`, if present. -/
def jget (kvs : List (String × JVal)) (k : String) : Option JVal :=
  (kvs.find? (fun p => p.1 == k)).map (fun p => p.2)

/-- `k in d.keys()` on a Python dict. -/
def hasKey (kvs : List (String × JVal)) (k : String) : Bool :=
  (jget kvs k).isSome

/-- Python truthiness of a JSON value (`bool(x)`). -/
def falsy : JVal → Bool
  | .null => true
  | .bool b => !b
  | .int n => n == 0
  | .str s => s == ""
  | .arr xs => xs.isEmpty
  | .obj kvs => kvs.isEmpty

/-- The `unwrap` helper of `extract_counts`: a dict carrying a
`_value` key is replaced by the value stored there. -/
def unwrap (v : JVal) : JVal :=
  match v with
  | .obj kvs =>
    match jget kvs "_value" with
    | some inner => inner
    | none => .obj kvs
  | _ => v

/-- Numeric value of a decimal digit character. -/
def digitVal (c : Char) : Nat := c.toNat - 48

/-- Value of a list of decimal digit characters, most significant first. -/
def decimalVal (l : List Char) : Nat := l.foldl (fun a c => a * 10 + digitVal c) 0

/-- Leading and trailing whitespace removed (Python `str.strip()`). -/
def stripChars (l : List Char) : List Char :=
  ((l.dropWhile Char.isWhitespace).reverse.dropWhile Char.isWhitespace).reverse

/-- Python `int(s)` on a string: optional surrounding whitespace,
optional sign, at least one decimal digit; anything else raises. -/
def parseIntStr? (s : String) : Option Int :=
  match stripChars s.data with
  | '-' :: rest =>
      if !rest.isEmpty && rest.all Char.isDigit then some (-(decimalVal rest : Int)) else none
  | '+' :: rest =>
      if !rest.isEmpty && rest.all Char.isDigit then some ((decimalVal rest : Int)) else none
  | l => if !l.isEmpty && l.all Char.isDigit then some ((decimalVal l : Int)) else none

/-- Python `int(x or 0)` on a JSON value: falsy values coerce to `0`,
true to `1`, integers to themselves, non-empty strings are parsed as
decimal integers; anything else raises (`none`). -/
def toIntPy? : JVal → Option Int
  | .null => some 0
  | .bool b => some (if b then 1 else 0)
  | .int n => some n
  | .str s => if s == "" then some 0 else parseIntStr? s
  | .arr xs => if xs.isEmpty then some 0 else none
  | .obj kvs => if kvs.isEmpty then some 0 else none

/-- One count field of a schema pattern:
`int(unwrap(node.get(k, 0)) or 0)`. -/
def getCount? (kvs : List (String × JVal)) (k : String) : Option Int :=
  toIntPy? (unwrap ((jget kvs k).getD (.int 0)))

/-- A count field with a fallback key:
`int(unwrap(node.get(k1, node.get(k2, 0))) or 0)`. -/
def getCount2? (kvs : List (String × JVal)) (k1 k2 : String) : Option Int :=
  toIntPy? (unwrap ((jget kvs k1).getD ((jget kvs k2).getD (.int 0))))

/-- The direct-read schema patterns of `extract_counts` (patterns
0, A, B and the `*Count` alternate): guard on the two key names, read
the three fields, and skip the pattern (`none`) if any coercion
raises. -/
def tryDirect (kvs : List (String × JVal)) (kp kf ks : String) : Option (Int × Int × Int) :=
  if hasKey kvs kp && hasKey kvs kf then
    match getCount? kvs kp, getCount? kvs kf, getCount? kvs ks with
    | some p, some f, some s => some (p, f, s)
    | _, _, _ => none
  else none

/-- Pattern 0 of `extract_counts`: keys `passedTests`/`failedTests`. -/
def tryPattern1 (kvs : List (String × JVal)) : Option (Int × Int × Int) :=
  tryDirect kvs "passedTests" "failedTests" "skippedTests"

/-- Pattern 2 of `extract_counts`: `totalTestCount` plus
`failedTests` or `testsFailedCount`; passed is `max (total - f - s) 0`. -/
def tryPattern2 (kvs : List (String × JVal)) : Option (Int × Int × Int) :=
  if hasKey kvs "totalTestCount" && (hasKey kvs "failedTests" || hasKey kvs "testsFailedCount") then
    match getCount? kvs "totalTestCount",
          getCount2? kvs "failedTests" "testsFailedCount",
          getCount2? kvs "skippedTests" "testsSkippedCount" with
    | some total, some f, some s => some (max (total - f - s) 0, f, s)
    | _, _, _ => none
  else none

/-- All schema patterns tried on one mapping node, in the order of the source; a pattern that does not match or whose coercion raises falls
through to the next one. -/
def tryNode (kvs : List (String × JVal)) : Option (Int × Int × Int) :=
  (tryPattern1 kvs).orElse fun _ =>
  (tryPattern2 kvs).orElse fun _ =>
  (tryDirect kvs "passed" "failed" "skipped").orElse fun _ =>
  (tryDirect kvs "testsPassedCount" "testsFailedCount" "testsSkippedCount").orElse fun _ =>
  tryDirect kvs "passedCount" "failedCount" "skippedCount"

mutual

/-- `deep_iter`: pre-order, document-order enumeration of every
mapping node of the tree (a dict yields itself, then recurses into its
values; a list recurses into its elements). -/
def deep_iter : JVal → List (List (String × JVal))
  | .obj kvs => kvs :: deepIterKvs kvs
  | .arr xs => deepIterList xs
  | _ => []

/-- `deep_iter` over the values of a dict, in insertion order. -/
def deepIterKvs : List (String × JVal) → List (List (String × JVal))
  | [] => []
  | (_, v) :: rest => deep_iter v ++ deepIterKvs rest

/-- `deep_iter` over the elements of a list, in order. -/
def deepIterList : List JVal → List (List (String × JVal))
  | [] => []
  | v :: rest => deep_iter v ++ deepIterList rest

end

/-- `extract_counts`: the first mapping node (in `deep_iter` order) on
which some schema pattern succeeds determines the counts; if none
does, the triple is `(0, 0, 0)`. -/
def extract_counts (data : JVal) : Int × Int × Int :=
  ((deep_iter data).findSome? tryNode).getD (0, 0, 0)

mutual

/-- No negative count value anywhere in the tree: every integer scalar
is non-negative and every string scalar that parses as an integer
parses to a non-negative one.  (Documents actually produced by the
summarization tool satisfy this.) -/
def noNeg : JVal → Bool
  | .null => true
  | .bool _ => true
  | .int n => decide (0 ≤ n)
  | .str s =>
    match parseIntStr? s with
    | some v => decide (0 ≤ v)
    | none => true
  | .arr xs => noNegList xs
  | .obj kvs => noNegKvs kvs

/-- `noNeg` over the elements of a list. -/
def noNegList : List JVal → Bool
  | [] => true
  | v :: rest => noNeg v && noNegList rest

/-- `noNeg` over the values of a dict. -/
def noNegKvs : List (String × JVal) → Bool
  | [] => true
  | (_, v) :: rest => noNeg v && noNegKvs rest

end

/-- Does `hay` start with `needle`? (first argument is the needle). -/
def startsL : List Char → List Char → Bool
  | [], _ => true
  | _ :: _, [] => false
  | c :: cs, d :: ds => c == d && startsL cs ds

/-- Does `needle` occur as a contiguous substring of the second
argument?  Models Python `needle in hay`. -/
def hasSubL (needle : List Char) : List Char → Bool
  | [] => startsL needle []
  | l@(_ :: t) => startsL needle l || hasSubL needle t

/-- Python `needle in hay` on strings. -/
def strContains (hay needle : String) : Bool := hasSubL needle.data hay.data

/-- Python `s.endswith(suf)`. -/
def strEndsWith (s suf : String) : Bool := startsL suf.data.reverse s.data.reverse

/-- Python `s.split(sep)` for a one-character separator: split on
every occurrence, keeping empty segments. -/
def splitOnChar (sep : Char) : List Char → List (List Char)
  | [] => [[]]
  | c :: rest =>
    let r := splitOnChar sep rest
    if c == sep then [] :: r
    else
      match r with
      | [] => [[c]]
      | h :: t => (c :: h) :: t

/-- Python `s[:n]`: the first `n` characters. -/
def strTake (s : String) (n : Nat) : String := ⟨s.data.take n⟩

/-- Decimal digit characters of `n`, most significant first, prefixed
to `acc`; the first argument is recursion fuel (any value above the
digit count of `n` gives the same result). -/
def natStrAux : Nat → Nat → List Char → List Char
  | 0, _, acc => acc
  | fuel + 1, n, acc =>
    if n < 10 then Nat.digitChar n :: acc
    else natStrAux fuel (n / 10) (Nat.digitChar (n % 10) :: acc)

/-- Decimal digit string of a natural number, as printed by Python
`str`. -/
def natStrL (n : Nat) : List Char := natStrAux (n + 1) n []

/-- Python `str(i)` for an integer, as a character list. -/
def intStrL (i : Int) : List Char :=
  if i < 0 then '-' :: natStrL i.natAbs else natStrL i.toNat

/-- Python `str(x)` for the scalar JSON values handled by the detail
extractor and renderer (containers are not given a printed form here;
the extractor only ever prints scalars). -/
def pyStrJ : JVal → String
  | .str s => s
  | .null => "None"
  | .bool b => if b then "True" else "False"
  | .int n => ⟨intStrL n⟩
  | .arr _ => ""
  | .obj _ => ""

/-- Python `a or b`. -/
def orJ (a b : JVal) : JVal := if falsy a then b else a

/-- Python `d.get(k)` (default `None`). -/
def getJ (kvs : List (String × JVal)) (k : String) : JVal := (jget kvs k).getD .null

/-- One row of the optional details table (`TestDetailRecord`). -/
structure TestDetail where
  name : String
  status : String
  suite : String
  failure : String
  testIdentifierString : String
deriving Repr, DecidableEq

/-- The per-record body of `_extract_details_from_summary`: skip
non-dict entries and entries with a falsy test name; derive the suite
from the slash-split test identifier (second-to-last segment, falling
back to the target name when the identifier is falsy, has no slash,
or the segment is empty); truncate the failure text to 100
characters. -/
def detailOfEntry : JVal → Option TestDetail
  | .obj fkvs =>
    let testName := orJ (getJ fkvs "testName") (orJ (getJ fkvs "testIdentifierString") (.str ""))
    let testId := orJ (getJ fkvs "testIdentifierString") (orJ (getJ fkvs "testIdentifierURL") (.str ""))
    let target := orJ (getJ fkvs "targetName") (.str "")
    let failureText := orJ (getJ fkvs "failureText") (.str "")
    if falsy testName then none
    else
      let tidS := pyStrJ testId
      let suite : JVal :=
        if !falsy testId && strContains tidS "/" then
          let parts := splitOnChar '/' tidS.data
          if parts.length ≥ 2 then .str ⟨parts.getD (parts.length - 2) []⟩ else target
        else .str ""
      some {
        name := pyStrJ testName
        status := "Failed"
        suite := pyStrJ (orJ suite target)
        failure := if falsy failureText then "" else strTake (pyStrJ failureText) 100
        testIdentifierString := pyStrJ (orJ testId (.str "")) }
  | _ => none

/-- `_extract_details_from_summary`: when the top-level value is a
dict whose `testFailures` key holds a list, build one record per
qualifying entry; return `none` (Python `None`) when nothing was
extracted. -/
def extractDetailsFromSummary : JVal → Option (List TestDetail)
  | .obj kvs =>
    match jget kvs "testFailures" with
    | some (.arr failures) =>
      let details := failures.filterMap detailOfEntry
      if details.isEmpty then none else some details
    | _ => none
  | _ => none

/-- The suite name the claim describes, with the fallback the code
actually implements: the second-to-last slash segment of the
identifier when the identifier contains a slash and that segment is
non-empty; the target/module name otherwise. -/
def suiteOf (tid tg : String) : String :=
  if strContains tid "/" then
    let parts := splitOnChar '/' tid.data
    let seg : String := ⟨parts.getD (parts.length - 2) []⟩
    if seg = "" then tg else seg
  else tg

/-- `d.get(k)` on the screenshot map. -/
def sget (m : List (String × List String)) (k : String) : Option (List String) :=
  (m.find? (fun p => p.1 == k)).map (fun p => p.2)

/-- `s.split("/")[-1]`: the last slash segment. -/
def lastSeg (s : String) : String := ⟨(splitOnChar '/' s.data).getLastD []⟩

/-- The fallback match condition of the screenshot loop in
`build_html`: `test_id in key or key.endswith(test_id) or (test_id and
key.split("/")[-1] == test_id.split("/")[-1])`. -/
def shotKeyMatch (testId key : String) : Bool :=
  strContains key testId || strEndsWith key testId ||
    (!(testId == "") && (lastSeg key == lastSeg testId))

/-- Value of the first map entry (in insertion order) whose key
satisfies the fallback match condition. -/
def findShotKey (m : List (String × List String)) (testId : String) : Option (List String) :=
  (m.find? (fun p => shotKeyMatch testId p.1)).map (fun p => p.2)

/-- The screenshot list attached to a detail row by `build_html`
(`none` when no strip is rendered): a non-empty exact-key entry wins;
otherwise the first key (in insertion order) satisfying the fallback
condition; the strip is dropped when the resulting list is empty. -/
def selectScreenshots (m : List (String × List String)) (testId : String) :
    Option (List String) :=
  let direct := (sget m testId).getD []
  let imgs := if !direct.isEmpty then direct else (findShotKey m testId).getD []
  if !imgs.isEmpty then some imgs else none

/-- Modelled from the words of the spec, for comparison with
`selectScreenshots`: match by identifier equality first, then by
suffix/containment over all keys, then by last-segment equality over
all keys — three separate priority tiers. -/
def selectScreenshotsSpec (m : List (String × List String)) (testId : String) :
    Option (List String) :=
  match sget m testId with
  | some v => some v
  | none =>
    match (m.find? (fun p => strContains p.1 testId || strEndsWith p.1 testId)).map
        (fun p => p.2) with
    | some v => some v
    | none => (m.find? (fun p => lastSeg p.1 == lastSeg testId)).map (fun p => p.2)

/-- Python `str(n)` for a natural number. -/
def natStr (n : Nat) : String := ⟨natStrL n⟩

/-- Python `str(i)` for an integer. -/
def intStr (i : Int) : String := ⟨intStrL i⟩

/-- Literal fragment of the `build_html` template. -/
def hH0 : String :=
  "<!doctype html>\n<html lang=\"en\">\n<head>\n  <meta charset=\"utf-8\" />\n  <title>"

/-- Literal fragment of the `build_html` template. -/
def hH1 : String :=
  "</title>\n  <meta name=\"viewport\" content=\"width=device-width, initial-scale=1\" />\n  <meta name=\"color-scheme\" content=\"dark\" />\n  <style>\n    body \x7b font-family: -apple-system, BlinkMacSystemFont, \x27Segoe UI\x27, Roboto,\n                Arial, sans-serif; margin: 32px; background: #1a1a1a; color: #e0e0e0; \x7d\n    .card \x7b border: 1px solid #3a3a3a; border-radius: 12px; padding: 20px;\n             max-width: 720px; box-shadow: 0 4px 12px rgba(0,0,0,0.3); background: #2b2b2b; \x7d\n    h1, h2 \x7b margin: 0 0 8px 0; font-size: 22px; color: #fff; \x7d\n    h2 \x7b font-size: 18px; margin-top: 4px; \x7d\n    .meta \x7b color: #9ca3af; margin-bottom: 16px; font-size: 14px; \x7d\n    .grid \x7b display: grid; grid-template-columns: repeat(4, 1fr); gap: 10px;\n             margin: 16px 0 12px; \x7d\n    .kpi \x7b border: 1px solid #3a3a3a; border-radius: 10px; padding: 12px;\n            text-align: center; background: #1f1f1f; \x7d\n    .kpi .label \x7b color: #9ca3af; font-size: 12px; \x7d\n    .kpi .value \x7b font-size: 20px; margin-top: 6px; color: #fff; \x7d\n    .small \x7b color: #9ca3af; font-size: 12px; margin-top: 10px; \x7d\n    canvas \x7b max-width: 520px; margin: auto; \x7d\n    table \x7b color: #e0e0e0; \x7d\n    th \x7b color: #d1d5db; \x7d\n    @media print \x7b\n      body \x7b background: #fff !important; color: #111 !important; -webkit-print-color-adjust: exact; print-color-adjust: exact; \x7d\n      .card \x7b background: #fff !important; border-color: #333 !important; box-shadow: none !important; color: #111 !important; \x7d\n      .card * \x7b color: #111 !important; \x7d\n      h1, h2 \x7b color: #111 !important; \x7d\n      .meta, .small, .kpi .label \x7b color: #444 !important; \x7d\n      .kpi \x7b background: #f5f5f5 !important; border-color: #ccc !important; color: #111 !important; \x7d\n      .kpi .value \x7b color: #111 !important; \x7d\n      table, th, td \x7b color: #111 !important; border-color: #333 !important; \x7d\n      td \x7b border-bottom-color: #ddd !important; \x7d\n      body > p \x7b color: #444 !important; \x7d\n    \x7d\n  </style>\n</head>\n<body>\n  <div class=\"card\">\n    <h1>"

/-- Literal fragment of the `build_html` template. -/
def hH2 : String :=
  "</h1>\n    <div class=\"meta\">This report is intended to be a quick overview of the test results. For detailed test results, please view the original xcresult bundle.</div>\n    <div class=\"grid\">\n      <div class=\"kpi\"><div class=\"label\">Total</div><div class=\"value\">"

/-- Literal fragment of the `build_html` template. -/
def hH3 : String :=
  "</div></div>\n      <div class=\"kpi\"><div class=\"label\">Passed</div><div class=\"value\">"

/-- Literal fragment of the `build_html` template. -/
def hH4 : String :=
  "</div></div>\n      <div class=\"kpi\"><div class=\"label\">Failed</div><div class=\"value\">"

/-- Literal fragment of the `build_html` template. -/
def hH5 : String :=
  "</div></div>\n      <div class=\"kpi\"><div class=\"label\">Skipped</div><div class=\"value\">"

/-- Literal fragment of the `build_html` template. -/
def hH6 : String :=
  "</div></div>\n    </div>\n    <canvas id=\"pie\" width=\"520\" height=\"320\"></canvas>\n    <div class=\"small\">Source: "

/-- Literal fragment of the `build_html` template. -/
def hH7 : String :=
  "</div>\n  </div>"

/-- Literal fragment of the `build_html` template. -/
def hD0 : String :=
  "\n  <div class=\"card\" style=\"margin-top:24px;\">\n    <h2>Test details</h2>\n    <p class=\"meta\">"

/-- Literal fragment of the `build_html` template. -/
def hD1 : String :=
  "</p>\n    <table style=\"width:100%; border-collapse:collapse; font-size:13px;\">\n      <thead>\n        <tr>\n          <th style=\"text-align:left; border-bottom:1px solid #404040; padding:6px;\">Test</th>\n          <th style=\"text-align:left; border-bottom:1px solid #404040; padding:6px;\">Suite</th>\n          <th style=\"text-align:left; border-bottom:1px solid #404040; padding:6px;\">Status</th>"

/-- Literal fragment of the `build_html` template. -/
def hFailTh : String :=
  "\n          <th style=\"text-align:left; border-bottom:1px solid #404040; padding:6px;\">Failure</th>"

/-- Literal fragment of the `build_html` template. -/
def hTheadClose : String :=
  "\n        </tr>\n      </thead>\n      <tbody>\n"

/-- Literal fragment of the `build_html` template. -/
def hRowClose : String :=
  "\n        </tr>\n"

/-- Literal fragment of the `build_html` template. -/
def hShotClose : String :=
  "</div>\n          </td>\n        </tr>\n"

/-- Literal fragment of the `build_html` template. -/
def hTbodyClose : String :=
  "      </tbody>\n    </table>\n  </div>\n"

/-- Literal fragment of the `build_html` template. -/
def hR0 : String :=
  "        <tr>\n          <td style=\"border-bottom:1px solid #404040; padding:4px 6px;\">"

/-- Literal fragment of the `build_html` template. -/
def hR1 : String :=
  "</td>\n          <td style=\"border-bottom:1px solid #404040; padding:4px 6px;\">"

/-- Literal fragment of the `build_html` template. -/
def hR2 : String :=
  "</td>\n          <td style=\"border-bottom:1px solid #404040; padding:4px 6px; color:"

/-- Literal fragment of the `build_html` template. -/
def hR3 : String :=
  "; font-weight:bold;\">"

/-- Literal fragment of the `build_html` template. -/
def hR4 : String :=
  "</td>"

/-- Literal fragment of the `build_html` template. -/
def hF0 : String :=
  "\n          <td style=\"border-bottom:1px solid #404040; padding:4px 6px; font-size:12px; color:#9ca3af;\">"

/-- Literal fragment of the `build_html` template. -/
def hF1 : String :=
  "</td>"

/-- Literal fragment of the `build_html` template. -/
def hS0 : String :=
  "        <tr>\n          <td colspan=\""

/-- Literal fragment of the `build_html` template. -/
def hS1 : String :=
  "\" style=\"border-bottom:1px solid #404040; padding:8px 6px; background:#1f1f1f;\">\n            <div style=\"font-size:11px; color:#9ca3af; margin-bottom:4px;\">Screenshots</div>\n            <div style=\"display:flex; flex-wrap:wrap; gap:8px;\">"

/-- Literal fragment of the `build_html` template. -/
def hI0 : String :=
  "<img src=\""

/-- Literal fragment of the `build_html` template. -/
def hI1 : String :=
  "\" alt=\""

/-- Literal fragment of the `build_html` template. -/
def hI2 : String :=
  "\" style=\"max-width:280px; max-height:200px; border:1px solid #404040; border-radius:4px;\" />"

/-- Literal fragment of the `build_html` template. -/
def hM0 : String :=
  "<span style=\"font-size:12px; color:#9ca3af;\">+"

/-- Literal fragment of the `build_html` template. -/
def hM1 : String :=
  " more</span>"

/-- Literal fragment of the `build_html` template. -/
def hT0 : String :=
  "\n  <script src=\"https://cdn.jsdelivr.net/npm/chart.js\"></script>\n  <script>\n    Chart.defaults.color = \x27#d1d5db\x27;\n    Chart.defaults.borderColor = \x27#404040\x27;\n    const ctx = document.getElementById(\x27pie\x27);\n    new Chart(ctx, \x7b\n      type: \x27pie\x27,\n      data: \x7b\n        labels: [\x27Passed\x27, \x27Failed\x27, \x27Skipped\x27],\n        datasets: [\x7b data: ["

/-- Literal fragment of the `build_html` template. -/
def hT1 : String :=
  ", "

/-- Literal fragment of the `build_html` template. -/
def hT2 : String :=
  ", "

/-- Literal fragment of the `build_html` template. -/
def hT3 : String :=
  "],\n          backgroundColor: [\x27#22c55e\x27, \x27#ef4444\x27, \x27#f59e0b\x27],\n          borderColor: \x27#2b2b2b\x27,\n          borderWidth: 2 \x7d]\n      \x7d,\n      options: \x7b\n        responsive: true,\n        plugins: \x7b legend: \x7b position: \x27bottom\x27, labels: \x7b color: \x27#d1d5db\x27 \x7d \x7d, title: \x7b display: false \x7d \x7d\n      \x7d\n    \x7d);\n  </script>\n  <hr style=\"border: none; border-top: 1px solid #404040; margin: 24px 0 0 0;\" />\n  <br /><br /><br />\n  <p style=\"color: #6b7280; font-size: 12px; margin: 0;\">This was built with passion</p>\n</body>\n</html>\n"

/-- The status-cell colour: `"#ef4444" if status == "Failed" else
"#22c55e" if status == "Passed" else "#f59e0b"`. -/
def statusColor (status : String) : String :=
  if status == "Failed" then "#ef4444"
  else if status == "Passed" then "#22c55e" else "#f59e0b"

/-- Python truthiness of an optional string (`None` and `""` falsy). -/
def truthyOptStr : Option String → Bool
  | none => false
  | some s => !(s == "")

/-- Python truthiness of an optional map (`None` and the empty dict falsy). -/
def truthyOptMap : Option (List (String × List String)) → Bool
  | none => false
  | some m => !m.isEmpty

/-- Python truthiness of an optional list (`None` and `[]` falsy). -/
def truthyOptList {α : Type _} : Option (List α) → Bool
  | none => false
  | some l => !l.isEmpty

/-- The inline screenshot strip appended after a detail row. -/
def shotRowHtml (hasFailures : Bool) (dir : String) (imgs : List String) : String :=
  hS0 ++ natStr (if hasFailures then 4 else 3) ++ hS1 ++
  String.join ((imgs.take 10).map (fun fn => hI0 ++ dir ++ "/" ++ fn ++ hI1 ++ fn ++ hI2)) ++
  (if imgs.length > 10 then hM0 ++ natStr (imgs.length - 10) ++ hM1 else "") ++
  hShotClose

/-- One detail table row of `build_html` (with its optional failure
cell and optional screenshot strip); the interpolated name, suite,
status and failure text are embedded raw, exactly as the f-string in the source does. -/
def rowHtml (hasFailures hasShots : Bool) (dir : String)
    (m : Option (List (String × List String))) (item : TestDetail) : String :=
  hR0 ++ item.name ++ hR1 ++ item.suite ++ hR2 ++ statusColor item.status ++ hR3 ++
    item.status ++ hR4 ++
  (if hasFailures then hF0 ++ item.failure ++ hF1 else "") ++
  hRowClose ++
  (if hasShots then
    match m with
    | some mm =>
      match selectScreenshots mm item.testIdentifierString with
      | some imgs => shotRowHtml hasFailures dir imgs
      | none => ""
    | none => ""
   else "")

/-- The optional details section of `build_html`. -/
def detailsHtml (details : List TestDetail) (dirOpt : Option String)
    (mapOpt : Option (List (String × List String))) : String :=
  let hasShots := truthyOptStr dirOpt && truthyOptMap mapOpt
  let hasFailures := details.any (fun item => !(item.failure == ""))
  let metaNote := if hasShots then "Screenshots included below when available."
    else "Best-effort list of tests discovered in the xcresult summary. Screenshots and other rich attachments are not included."
  hD0 ++ metaNote ++ hD1 ++
  (if hasFailures then hFailTh else "") ++
  hTheadClose ++
  String.join (details.map (rowHtml hasFailures hasShots (dirOpt.getD "") mapOpt)) ++
  hTbodyClose

/-- `build_html`: the full HTML report string — header and summary
card with the four KPI numerals, optional details table, and the
closing chart script interpolating passed/failed/skipped into the
chart data array. -/
def build_html (passed failed skipped : Int) (source_name title : String)
    (details : Option (List TestDetail))
    (screenshot_dir_relative : Option String)
    (screenshot_map : Option (List (String × List String))) : String :=
  let total := passed + failed + skipped
  hH0 ++ title ++ hH1 ++ title ++ hH2 ++ intStr total ++ hH3 ++ intStr passed ++
    hH4 ++ intStr failed ++ hH5 ++ intStr skipped ++ hH6 ++ source_name ++ hH7 ++
  (if truthyOptList details then
    detailsHtml (details.getD []) screenshot_dir_relative screenshot_map
   else "") ++
  (hT0 ++ intStr passed ++ hT1 ++ intStr failed ++ hT2 ++ intStr skipped ++ hT3)

/-- Head of a char list is absent or not a decimal digit. -/
def headNotDigit : List Char → Bool
  | [] => true
  | c :: _ => !c.isDigit

/-- Greedily consume decimal digits, accumulating their value. -/
def readNatAux : List Char → Nat → Nat × List Char
  | [], acc => (acc, [])
  | c :: cs, acc => if c.isDigit then readNatAux cs (acc * 10 + digitVal c) else (acc, c :: cs)

/-- Read a decimal numeral from the front of a char list (at least
one digit required). -/
def readNat? : List Char → Option (Nat × List Char)
  | [] => none
  | c :: cs => if c.isDigit then some (readNatAux (c :: cs) 0) else none

/-- Strip an expected literal from the front of a char list. -/
def dropLit? : List Char → List Char → Option (List Char)
  | [], l => some l
  | _ :: _, [] => none
  | c :: cs, d :: ds => if c == d then dropLit? cs ds else none

/-- One stage of the report re-parser: the fixed header through the
Total KPI label. -/
def parseHeader (title : String) (l : List Char) : Option (List Char) :=
  (dropLit? hH0.data l).bind fun r0 =>
  (dropLit? title.data r0).bind fun r1 =>
  (dropLit? hH1.data r1).bind fun r2 =>
  (dropLit? title.data r2).bind fun r3 =>
  dropLit? hH2.data r3

/-- One stage of the report re-parser: the four KPI numerals of the
summary grid (total is read and discarded). -/
def parseKpis (l : List Char) : Option ((Nat × Nat × Nat) × List Char) :=
  (readNat? l).bind fun t =>
  (dropLit? hH3.data t.2).bind fun r6 =>
  (readNat? r6).bind fun p =>
  (dropLit? hH4.data p.2).bind fun r8 =>
  (readNat? r8).bind fun f =>
  (dropLit? hH5.data f.2).bind fun r10 =>
  (readNat? r10).bind fun s =>
  some ((p.1, f.1, s.1), s.2)

/-- One stage of the report re-parser: from the Source line through
the opening of the chart data array. -/
def parseMid (source_name : String) (l : List Char) : Option (List Char) :=
  (dropLit? hH6.data l).bind fun r12 =>
  (dropLit? source_name.data r12).bind fun r13 =>
  (dropLit? hH7.data r13).bind fun r14 =>
  dropLit? hT0.data r14

/-- One stage of the report re-parser: the three entries of the chart
data array and the closing of the document. -/
def parseChart (l : List Char) : Option (Nat × Nat × Nat) :=
  (readNat? l).bind fun p =>
  (dropLit? hT1.data p.2).bind fun r17 =>
  (readNat? r17).bind fun f =>
  (dropLit? hT2.data f.2).bind fun r19 =>
  (readNat? r19).bind fun s =>
  (dropLit? hT3.data s.2).bind fun _ =>
  some (p.1, f.1, s.1)

/-- Re-parse the numeric values embedded in a rendered report (for a
report without a details section): the passed/failed/skipped KPI
numerals and the chart data array, returned as two triples. -/
def parseReport (title source_name : String) (html : String) :
    Option ((Nat × Nat × Nat) × (Nat × Nat × Nat)) :=
  (parseHeader title html.data).bind fun r4 =>
  (parseKpis r4).bind fun kpi =>
  (parseMid source_name kpi.2).bind fun r15 =>
  (parseChart r15).bind fun chart =>
  some (kpi.1, chart)

/-- Python `s.strip()`. -/
def pyStrip (s : String) : String := ⟨stripChars s.data⟩

/-- The two fatal error kinds `_process_xcresult_to_html` can raise
before producing the artifact (both `RuntimeError` in the source,
distinguished here by constructor). -/
inductive ProcError where
  | extractionEmpty (msg : String)
  | jsonParseError (msg : String)
deriving Repr, DecidableEq

/-- A successful `_process_xcresult_to_html` run: the counts returned
to the caller, the HTML artifact written to the destination, and the
diagnostic JSON sidecar. -/
structure ProcOutput where
  counts : Int × Int × Int
  html : String
  debugJson : Option String

/-- `_process_xcresult_to_html` with the subprocess invocation and the
filesystem abstracted: `jsonStr`/`errText`/`cmdText` are the triple
returned by `run_xcresulttool`, `parse` models `json.loads` (its
error carries the exception text), `exportResult` models
`_export_attachments`; log writes are not modelled; the HTML artifact
is carried in the result instead of written, so an error result means
no artifact was produced. -/
def processXcresult (jsonStr : Option String) (errText cmdText : String)
    (parse : String → Except String JVal)
    (exportResult : Option String × Option (List (String × List String)))
    (reportTitle : Option String) (includeDetails includeScreenshots : Bool)
    (sourceName : String) : Except ProcError ProcOutput :=
  if truthyOptStr jsonStr = true then
    match parse (jsonStr.getD "") with
    | .error e => .error (.jsonParseError ("Failed to parse JSON summary: " ++ e))
    | .ok data =>
      let counts := extract_counts data
      let details := if includeDetails then extractDetailsFromSummary data else none
      let shots :=
        if truthyOptList details && includeScreenshots then
          (exportResult.1, if truthyOptMap exportResult.2 then exportResult.2 else none)
        else ((none : Option String), (none : Option (List (String × List String))))
      let title := if truthyOptStr reportTitle then reportTitle.getD "" else "XCTest Summary"
      .ok ⟨counts,
        build_html counts.1 counts.2.1 counts.2.2 sourceName title details shots.1 shots.2,
        jsonStr⟩
  else
    .error (.extractionEmpty ("Failed to extract summary from xcresult.\n\n" ++
      (if cmdText = "" then "" else "Command: " ++ cmdText ++ "\n\n") ++
      (if pyStrip errText = "" then "No error output captured."
       else "Error output:\n" ++ pyStrip errText ++ "\n")))

theorem toIntPy?_nonneg {v : JVal} {n : Int} (hv : noNeg v = true)
    (h : toIntPy? v = some n) : 0 ≤ n := by
  cases v with
  | null => simp [toIntPy?] at h; omega
  | bool b => cases b <;> simp [toIntPy?] at h <;> omega
  | int m =>
    simp [toIntPy?] at h
    simp [noNeg] at hv
    omega
  | str s =>
    simp [toIntPy?] at h
    simp [noNeg] at hv
    by_cases hs : s = ""
    · simp [hs] at h; omega
    · simp [hs] at h
      rw [h] at hv
      simpa using hv
  | arr xs =>
    simp [toIntPy?] at h
    rcases h with ⟨_, h⟩
    omega
  | obj kvs =>
    simp [toIntPy?] at h
    rcases h with ⟨_, h⟩
    omega

theorem noNeg_jget {kvs : List (String × JVal)} {k : String} {v : JVal}
    (hkvs : noNegKvs kvs = true) (h : jget kvs k = some v) : noNeg v = true := by
  induction kvs with
  | nil => simp [jget] at h
  | cons hd tl ih =>
    rw [noNegKvs] at hkvs
    simp only [Bool.and_eq_true] at hkvs
    simp only [jget, List.find?] at h
    by_cases hk : (hd.1 == k) = true
    · rw [hk] at h
      simp at h
      rw [← h]
      exact hkvs.1
    · rw [Bool.not_eq_true] at hk
      rw [hk] at h
      exact ih hkvs.2 h

theorem noNeg_unwrap {v : JVal} (hv : noNeg v = true) : noNeg (unwrap v) = true := by
  cases v with
  | obj kvs =>
    rw [unwrap]
    cases h : jget kvs "_value" with
    | some inner => exact noNeg_jget hv h
    | none => exact hv
  | null => exact hv
  | bool b => exact hv
  | int n => exact hv
  | str s => exact hv
  | arr xs => exact hv

theorem getCount?_nonneg {kvs : List (String × JVal)} {k : String} {n : Int}
    (hkvs : noNegKvs kvs = true) (h : getCount? kvs k = some n) : 0 ≤ n := by
  rw [getCount?] at h
  cases hg : jget kvs k with
  | some v =>
    rw [hg] at h
    exact toIntPy?_nonneg (noNeg_unwrap (noNeg_jget hkvs hg)) h
  | none =>
    rw [hg] at h
    simp [unwrap, jget, toIntPy?] at h
    omega

theorem getCount2?_nonneg {kvs : List (String × JVal)} {k1 k2 : String} {n : Int}
    (hkvs : noNegKvs kvs = true) (h : getCount2? kvs k1 k2 = some n) : 0 ≤ n := by
  rw [getCount2?] at h
  cases hg : jget kvs k1 with
  | some v =>
    rw [hg] at h
    exact toIntPy?_nonneg (noNeg_unwrap (noNeg_jget hkvs hg)) h
  | none =>
    rw [hg] at h
    cases hg2 : jget kvs k2 with
    | some v =>
      rw [hg2] at h
      exact toIntPy?_nonneg (noNeg_unwrap (noNeg_jget hkvs hg2)) h
    | none =>
      rw [hg2] at h
      simp [unwrap, jget, toIntPy?] at h
      omega

theorem tryDirect_nonneg {kvs : List (String × JVal)} {kp kf ks : String}
    {t : Int × Int × Int} (hkvs : noNegKvs kvs = true)
    (h : tryDirect kvs kp kf ks = some t) : 0 ≤ t.1 ∧ 0 ≤ t.2.1 ∧ 0 ≤ t.2.2 := by
  rw [tryDirect] at h
  split at h
  · cases hp : getCount? kvs kp with
    | none => rw [hp] at h; simp at h
    | some p =>
      cases hf : getCount? kvs kf with
      | none => rw [hp, hf] at h; simp at h
      | some f =>
        cases hs : getCount? kvs ks with
        | none => rw [hp, hf, hs] at h; simp at h
        | some s =>
          rw [hp, hf, hs] at h
          simp at h
          rw [← h]
          exact ⟨getCount?_nonneg hkvs hp, getCount?_nonneg hkvs hf, getCount?_nonneg hkvs hs⟩
  · exact absurd h (by simp)

theorem tryPattern2_nonneg {kvs : List (String × JVal)} {t : Int × Int × Int}
    (hkvs : noNegKvs kvs = true)
    (h : tryPattern2 kvs = some t) : 0 ≤ t.1 ∧ 0 ≤ t.2.1 ∧ 0 ≤ t.2.2 := by
  rw [tryPattern2] at h
  split at h
  · cases hp : getCount? kvs "totalTestCount" with
    | none => rw [hp] at h; simp at h
    | some total =>
      cases hf : getCount2? kvs "failedTests" "testsFailedCount" with
      | none => rw [hp, hf] at h; simp at h
      | some f =>
        cases hs : getCount2? kvs "skippedTests" "testsSkippedCount" with
        | none => rw [hp, hf, hs] at h; simp at h
        | some s =>
          rw [hp, hf, hs] at h
          simp at h
          rw [← h]
          refine ⟨le_max_right _ _, getCount2?_nonneg hkvs hf, getCount2?_nonneg hkvs hs⟩
  · exact absurd h (by simp)

theorem tryNode_nonneg {kvs : List (String × JVal)} {t : Int × Int × Int}
    (hkvs : noNegKvs kvs = true)
    (h : tryNode kvs = some t) : 0 ≤ t.1 ∧ 0 ≤ t.2.1 ∧ 0 ≤ t.2.2 := by
  rw [tryNode] at h
  rcases h1 : tryPattern1 kvs with _ | t1
  · rw [h1] at h
    simp [Option.orElse] at h
    rcases h2 : tryPattern2 kvs with _ | t2
    · rw [h2] at h
      simp [Option.orElse] at h
      rcases h3 : tryDirect kvs "passed" "failed" "skipped" with _ | t3
      · rw [h3] at h
        simp [Option.orElse] at h
        rcases h4 : tryDirect kvs "testsPassedCount" "testsFailedCount" "testsSkippedCount" with _ | t4
        · rw [h4] at h
          simp [Option.orElse] at h
          exact tryDirect_nonneg hkvs h
        · rw [h4] at h
          simp [Option.orElse] at h
          rw [← h]
          exact tryDirect_nonneg hkvs h4
      · rw [h3] at h
        simp [Option.orElse] at h
        rw [← h]
        exact tryDirect_nonneg hkvs h3
    · rw [h2] at h
      simp [Option.orElse] at h
      rw [← h]
      exact tryPattern2_nonneg hkvs h2
  · rw [h1] at h
    simp [Option.orElse] at h
    rw [← h]
    exact tryDirect_nonneg hkvs h1

mutual

theorem noNegKvs_of_mem_deep_iter : ∀ (j : JVal), noNeg j = true →
    ∀ kvs ∈ deep_iter j, noNegKvs kvs = true
  | .obj kvs, hj, n, hn => by
    rw [deep_iter] at hn
    rcases List.mem_cons.mp hn with h | h
    · rw [h]; exact hj
    · exact noNegKvs_of_mem_deepIterKvs kvs hj n h
  | .arr xs, hj, n, hn => by
    rw [deep_iter] at hn
    exact noNegKvs_of_mem_deepIterList xs hj n hn
  | .null, _, n, hn => by simp [deep_iter] at hn
  | .bool _, _, n, hn => by simp [deep_iter] at hn
  | .int _, _, n, hn => by simp [deep_iter] at hn
  | .str _, _, n, hn => by simp [deep_iter] at hn

theorem noNegKvs_of_mem_deepIterKvs : ∀ (l : List (String × JVal)), noNegKvs l = true →
    ∀ kvs ∈ deepIterKvs l, noNegKvs kvs = true
  | [], _, n, hn => by simp [deepIterKvs] at hn
  | (k, v) :: rest, hl, n, hn => by
    rw [noNegKvs] at hl
    simp only [Bool.and_eq_true] at hl
    rw [deepIterKvs] at hn
    rcases List.mem_append.mp hn with h | h
    · exact noNegKvs_of_mem_deep_iter v hl.1 n h
    · exact noNegKvs_of_mem_deepIterKvs rest hl.2 n h

theorem noNegKvs_of_mem_deepIterList : ∀ (l : List JVal), noNegList l = true →
    ∀ kvs ∈ deepIterList l, noNegKvs kvs = true
  | [], _, n, hn => by simp [deepIterList] at hn
  | v :: rest, hl, n, hn => by
    rw [noNegList] at hl
    simp only [Bool.and_eq_true] at hl
    rw [deepIterList] at hn
    rcases List.mem_append.mp hn with h | h
    · exact noNegKvs_of_mem_deep_iter v hl.1 n h
    · exact noNegKvs_of_mem_deepIterList rest hl.2 n h

end

/-- C2 (amended): for every document whose scalars carry no negative
count value — in particular every document the summarization tool
emits — the triple returned by `extract_counts` is componentwise
non-negative. -/
theorem extract_counts_nonneg (data : JVal) (h : noNeg data = true) :
    0 ≤ (extract_counts data).1 ∧ 0 ≤ (extract_counts data).2.1 ∧
      0 ≤ (extract_counts data).2.2 := by
  rw [extract_counts]
  cases hf : (deep_iter data).findSome? tryNode with
  | none => simp
  | some t =>
    rcases List.findSome?_eq_some_iff.mp hf with ⟨l₁, a, l₂, hsplit, ha, _⟩
    have hmem : a ∈ deep_iter data := by
      rw [hsplit]
      exact List.mem_append.mpr (Or.inr (List.mem_cons_self a l₂))
    have := tryNode_nonneg (noNegKvs_of_mem_deep_iter data h a hmem) ha
    simpa using this

/-- Witness for `extract_counts_nonneg` at a concrete document. -/
theorem extract_counts_nonneg_witness :
    0 ≤ (extract_counts (.obj [("passedTests", .int 10), ("failedTests", .int 2),
      ("skippedTests", .int 1)])).1 ∧
    0 ≤ (extract_counts (.obj [("passedTests", .int 10), ("failedTests", .int 2),
      ("skippedTests", .int 1)])).2.1 ∧
    0 ≤ (extract_counts (.obj [("passedTests", .int 10), ("failedTests", .int 2),
      ("skippedTests", .int 1)])).2.2 :=
  extract_counts_nonneg _ (by decide)

/-- C2 counterexample: as stated over every parsed JSON tree, the
claim is false — a document carrying a negative `passedTests` value
makes `extract_counts` return a negative component. -/
theorem extract_counts_neg_counterexample :
    extract_counts (.obj [("passedTests", .int (-1)), ("failedTests", .int 2)]) = (-1, 2, 0) ∧
      ((-1 : Int) < 0) := by
  constructor
  · decide
  · decide

/-- First-match-wins: if the pre-order enumeration of mapping nodes
splits as `pre ++ node :: post`, no node of `pre` matches any pattern,
and `node` matches with result `t`, then `extract_counts` returns
`t`. -/
theorem extract_counts_first_match {data : JVal}
    {pre post : List (List (String × JVal))} {node : List (String × JVal)}
    {t : Int × Int × Int}
    (hsplit : deep_iter data = pre ++ node :: post)
    (hpre : ∀ kvs ∈ pre, tryNode kvs = none)
    (hnode : tryNode node = some t) :
    extract_counts data = t := by
  rw [extract_counts, hsplit, List.findSome?_append]
  rw [List.findSome?_eq_none_iff.mpr hpre]
  rw [List.findSome?_cons, hnode]
  rfl

/-- C4: if the first mapping node matching any pattern has keys
`passedTests` and `failedTests` (pattern 1), the counts are the
`_value`-unwrapped integer coercions of `passedTests`, `failedTests`,
and `skippedTests` — the latter defaulting to `0` when the key is
absent. -/
theorem extract_counts_pattern1 {data : JVal}
    {pre post : List (List (String × JVal))} {node : List (String × JVal)}
    {vp vf : JVal} {p f s : Int}
    (hsplit : deep_iter data = pre ++ node :: post)
    (hpre : ∀ kvs ∈ pre, tryNode kvs = none)
    (hp : jget node "passedTests" = some vp)
    (hf : jget node "failedTests" = some vf)
    (hcp : toIntPy? (unwrap vp) = some p)
    (hcf : toIntPy? (unwrap vf) = some f)
    (hs : (jget node "skippedTests" = none ∧ s = 0) ∨
          (∃ vs, jget node "skippedTests" = some vs ∧ toIntPy? (unwrap vs) = some s)) :
    extract_counts data = (p, f, s) := by
  apply extract_counts_first_match hsplit hpre
  have hkp : hasKey node "passedTests" = true := by rw [hasKey, hp]; rfl
  have hkf : hasKey node "failedTests" = true := by rw [hasKey, hf]; rfl
  have hgp : getCount? node "passedTests" = some p := by
    rw [getCount?, hp]; exact hcp
  have hgf : getCount? node "failedTests" = some f := by
    rw [getCount?, hf]; exact hcf
  have hgs : getCount? node "skippedTests" = some s := by
    rcases hs with ⟨habs, hzero⟩ | ⟨vs, hvs, hcs⟩
    · rw [getCount?, habs, hzero]; rfl
    · rw [getCount?, hvs]; exact hcs
  have h1 : tryPattern1 node = some (p, f, s) := by
    rw [tryPattern1, tryDirect, hkp, hkf]
    simp only [Bool.and_self, if_true]
    rw [hgp, hgf, hgs]
  rw [tryNode, h1]
  rfl

/-- Witness for `extract_counts_pattern1`: scenario A,
`{"passedTests":10,"failedTests":2,"skippedTests":1}` yields
`(10, 2, 1)`. -/
theorem extract_counts_pattern1_witness :
    extract_counts (.obj [("passedTests", .int 10), ("failedTests", .int 2),
      ("skippedTests", .int 1)]) = (10, 2, 1) :=
  @extract_counts_pattern1
    (.obj [("passedTests", .int 10), ("failedTests", .int 2), ("skippedTests", .int 1)])
    [] (deepIterKvs [("passedTests", .int 10), ("failedTests", .int 2), ("skippedTests", .int 1)])
    [("passedTests", .int 10), ("failedTests", .int 2), ("skippedTests", .int 1)]
    (.int 10) (.int 2) 10 2 1
    rfl (by simp) rfl rfl rfl rfl
    (Or.inr ⟨.int 1, rfl, rfl⟩)

/-- C3: if the first mapping node matching any pattern has key
`totalTestCount` together with `failedTests` or `testsFailedCount`
and pattern 1 did not match on it, the counts are
`(max (total - f - s) 0, f, s)` — passed clamped to non-negative —
with `f` and `s` read directly (each defaulting to `0` when its keys
are absent). -/
theorem extract_counts_pattern2 {data : JVal}
    {pre post : List (List (String × JVal))} {node : List (String × JVal)}
    {total f s : Int}
    (hsplit : deep_iter data = pre ++ node :: post)
    (hpre : ∀ kvs ∈ pre, tryNode kvs = none)
    (hp1 : tryPattern1 node = none)
    (hktot : hasKey node "totalTestCount" = true)
    (hkf : hasKey node "failedTests" = true ∨ hasKey node "testsFailedCount" = true)
    (hct : getCount? node "totalTestCount" = some total)
    (hcf : getCount2? node "failedTests" "testsFailedCount" = some f)
    (hcs : getCount2? node "skippedTests" "testsSkippedCount" = some s) :
    extract_counts data = (max (total - f - s) 0, f, s) := by
  apply extract_counts_first_match hsplit hpre
  have h2 : tryPattern2 node = some (max (total - f - s) 0, f, s) := by
    rw [tryPattern2, hktot]
    have : (hasKey node "failedTests" || hasKey node "testsFailedCount") = true := by
      rcases hkf with h | h <;> simp [h]
    rw [this]
    simp only [Bool.and_self, if_true]
    rw [hct, hcf, hcs]
  rw [tryNode, hp1, h2]
  rfl

/-- Witness for `extract_counts_pattern2`: scenario B,
`{"totalTestCount":100,"failedTests":5}` (no `skippedTests` key)
yields `(95, 5, 0)`. -/
theorem extract_counts_pattern2_witness :
    extract_counts (.obj [("totalTestCount", .int 100), ("failedTests", .int 5)]) =
      (95, 5, 0) := by
  have h := @extract_counts_pattern2
    (.obj [("totalTestCount", .int 100), ("failedTests", .int 5)])
    [] (deepIterKvs [("totalTestCount", .int 100), ("failedTests", .int 5)])
    [("totalTestCount", .int 100), ("failedTests", .int 5)]
    100 5 0
    rfl (by simp) rfl rfl (Or.inl rfl) rfl rfl rfl
  simpa using h

/-- C5: when no mapping node anywhere in the document matches any of
the recognized schema patterns, `extract_counts` returns `(0, 0, 0)`
(it is a total function, so no exception is possible). -/
theorem extract_counts_no_match (data : JVal)
    (h : ∀ kvs ∈ deep_iter data, tryNode kvs = none) :
    extract_counts data = (0, 0, 0) := by
  rw [extract_counts, List.findSome?_eq_none_iff.mpr h]
  rfl

/-- Witness for `extract_counts_no_match`: the empty object yields
`(0, 0, 0)`. -/
theorem extract_counts_no_match_witness :
    extract_counts (.obj []) = (0, 0, 0) :=
  extract_counts_no_match _ (by intro kvs hk; simp [deep_iter, deepIterKvs] at hk; rw [hk]; decide)

/-- C10: a count field whose (`_value`-unwrapped) value is falsy —
`null`, `False`, the empty string, an empty list or dict — coerces to
`0` and the pattern still matches; `{"passedTests": null,
"failedTests": 2}` yields `(0, 2, 0)`.  A truthy value that integer
coercion cannot convert (a non-numeric string) skips the pattern and
scanning continues, as shown by the third conjunct where pattern 1 is
skipped and pattern 2 returns. -/
theorem falsy_coerces_to_zero (v : JVal) (h : falsy v = true) :
    toIntPy? v = some 0 ∧
    extract_counts (.obj [("passedTests", .null), ("failedTests", .int 2)]) = (0, 2, 0) ∧
    extract_counts (.obj [("passedTests", .str "abc"), ("failedTests", .int 2),
      ("totalTestCount", .int 5)]) = (3, 2, 0) := by
  refine ⟨?_, by decide, by decide⟩
  cases v with
  | null => rfl
  | bool b =>
    cases b with
    | false => rfl
    | true => simp [falsy] at h
  | int n =>
    simp [falsy] at h
    rw [h]; rfl
  | str s =>
    simp [falsy] at h
    rw [h]; rfl
  | arr xs =>
    simp [falsy, List.isEmpty_iff] at h
    rw [h]; rfl
  | obj kvs =>
    simp [falsy, List.isEmpty_iff] at h
    rw [h]; rfl

/-- Witness for `falsy_coerces_to_zero` at `null`. -/
theorem falsy_coerces_to_zero_witness :
    toIntPy? .null = some 0 ∧
    extract_counts (.obj [("passedTests", .null), ("failedTests", .int 2)]) = (0, 2, 0) ∧
    extract_counts (.obj [("passedTests", .str "abc"), ("failedTests", .int 2),
      ("totalTestCount", .int 5)]) = (3, 2, 0) :=
  falsy_coerces_to_zero .null rfl

theorem splitOnChar_ne_nil (sep : Char) (l : List Char) : splitOnChar sep l ≠ [] := by
  induction l with
  | nil => simp [splitOnChar]
  | cons c t ih =>
    rw [splitOnChar]
    by_cases h : (c == sep) = true
    · simp [h]
    · rw [Bool.not_eq_true] at h
      simp only [h]
      cases ht : splitOnChar sep t with
      | nil => exact absurd ht ih
      | cons hd tl => simp

theorem splitOnChar_length_ge_two {sep : Char} {l : List Char}
    (h : hasSubL [sep] l = true) : 2 ≤ (splitOnChar sep l).length := by
  induction l with
  | nil => simp [hasSubL, startsL] at h
  | cons c t ih =>
    rw [hasSubL] at h
    rw [splitOnChar]
    rcases Bool.or_eq_true_iff.mp h with h1 | h1
    · rw [startsL] at h1
      simp only [Bool.and_eq_true] at h1
      have hc : (c == sep) = true := by
        rw [beq_iff_eq] at h1 ⊢
        exact h1.1.symm
      simp only [hc, if_true, List.length_cons]
      have := splitOnChar_ne_nil sep t
      have : 1 ≤ (splitOnChar sep t).length := by
        cases ht : splitOnChar sep t with
        | nil => exact absurd ht this
        | cons hd tl => simp
      omega
    · have h2 := ih h1
      by_cases hc : (c == sep) = true
      · simp only [hc, if_true, List.length_cons]
        omega
      · rw [Bool.not_eq_true] at hc
        simp only [hc]
        cases ht : splitOnChar sep t with
        | nil => exact absurd ht (splitOnChar_ne_nil sep t)
        | cons hd tl =>
          rw [ht] at h2
          simpa using h2

theorem detailOfEntry_eq {fkvs : List (String × JVal)} {nm tid ft tg : String}
    (hname : jget fkvs "testName" = some (.str nm)) (hnm : nm ≠ "")
    (htid : jget fkvs "testIdentifierString" = some (.str tid)) (htidne : tid ≠ "")
    (hft : orJ (getJ fkvs "failureText") (.str "") = .str ft)
    (htg : orJ (getJ fkvs "targetName") (.str "") = .str tg) :
    detailOfEntry (.obj fkvs) = some ⟨nm, "Failed", suiteOf tid tg, strTake ft 100, tid⟩ := by
  have hfalsy_nm : falsy (.str nm) = false := by simp [falsy, hnm]
  have hfalsy_tid : falsy (.str tid) = false := by simp [falsy, htidne]
  rw [detailOfEntry]
  have hgname : getJ fkvs "testName" = .str nm := by rw [getJ, hname]; rfl
  have hgtid : getJ fkvs "testIdentifierString" = .str tid := by rw [getJ, htid]; rfl
  have htn : orJ (getJ fkvs "testName")
      (orJ (getJ fkvs "testIdentifierString") (.str "")) = .str nm := by
    rw [hgname, orJ, hfalsy_nm]; rfl
  have hti : orJ (getJ fkvs "testIdentifierString")
      (orJ (getJ fkvs "testIdentifierURL") (.str "")) = .str tid := by
    rw [hgtid, orJ, hfalsy_tid]; rfl
  rw [htn, hti, hft, htg, hfalsy_nm]
  simp only [if_false, Bool.false_eq_true]
  have hsuite : pyStrJ (orJ
      (if !falsy (.str tid) && strContains (pyStrJ (.str tid)) "/" then
        let parts := splitOnChar '/' (pyStrJ (.str tid)).data
        if parts.length ≥ 2 then JVal.str ⟨parts.getD (parts.length - 2) []⟩ else .str tg
       else .str "") (.str tg)) = suiteOf tid tg := by
    rw [hfalsy_tid]
    show pyStrJ (orJ (if strContains tid "/" = true then _ else _) _) = _
    simp only [pyStrJ]
    by_cases hc : strContains tid "/" = true
    · rw [if_pos hc]
      have hlen : 2 ≤ (splitOnChar '/' tid.data).length := splitOnChar_length_ge_two hc
      rw [suiteOf, if_pos hc]
      simp only [ge_iff_le, hlen, if_true, orJ, falsy, beq_iff_eq]
      split_ifs <;> rfl
    · rw [if_neg hc, suiteOf, if_neg hc, orJ]
      simp [falsy, pyStrJ]
  rw [hsuite]
  have hfail : (if falsy (.str ft) = true then "" else strTake (pyStrJ (.str ft)) 100) =
      strTake ft 100 := by
    by_cases hfe : ft = ""
    · simp [falsy, hfe, strTake, pyStrJ]
    · simp [falsy, hfe, pyStrJ]
  rw [hfail]
  have hid : pyStrJ (orJ (.str tid) (.str "")) = tid := by
    rw [orJ, hfalsy_tid]
    simp [pyStrJ]
  rw [hid]
  rfl

/-- C6 (amended): when detail extraction runs, every entry of the
top-level `testFailures` list with a non-empty test name yields one
detail record: suite is the second-to-last slash segment of the test
identifier when the identifier has a slash and that segment is
non-empty, and the target/module name otherwise; the failure excerpt
is the failure text truncated to 100 characters; the status is
`Failed`. -/
theorem extract_details_entry {kvs : List (String × JVal)} {entries : List JVal}
    {fkvs : List (String × JVal)} {nm tid ft tg : String}
    (hlist : jget kvs "testFailures" = some (.arr entries))
    (hmem : (JVal.obj fkvs) ∈ entries)
    (hname : jget fkvs "testName" = some (.str nm)) (hnm : nm ≠ "")
    (htid : jget fkvs "testIdentifierString" = some (.str tid)) (htidne : tid ≠ "")
    (hft : orJ (getJ fkvs "failureText") (.str "") = .str ft)
    (htg : orJ (getJ fkvs "targetName") (.str "") = .str tg) :
    ∃ ds, extractDetailsFromSummary (.obj kvs) = some ds ∧
      (⟨nm, "Failed", suiteOf tid tg, strTake ft 100, tid⟩ : TestDetail) ∈ ds := by
  have hrec := detailOfEntry_eq hname hnm htid htidne hft htg
  have hmem2 : (⟨nm, "Failed", suiteOf tid tg, strTake ft 100, tid⟩ : TestDetail) ∈
      entries.filterMap detailOfEntry :=
    List.mem_filterMap.mpr ⟨.obj fkvs, hmem, hrec⟩
  refine ⟨entries.filterMap detailOfEntry, ?_, hmem2⟩
  rw [extractDetailsFromSummary, hlist]
  have : (entries.filterMap detailOfEntry).isEmpty = false := by
    rw [List.isEmpty_eq_false_iff_exists_mem]
    exact ⟨_, hmem2⟩
  simp [this]

/-- Witness for `extract_details_entry`: scenario E. -/
theorem extract_details_entry_witness :
    ∃ ds, extractDetailsFromSummary (.obj [("testFailures", .arr [.obj
      [("testName", .str "testFoo"), ("testIdentifierString", .str "SuiteA/testFoo"),
       ("failureText", .str "expected true")]])]) = some ds ∧
      (⟨"testFoo", "Failed", "SuiteA", "expected true", "SuiteA/testFoo"⟩ : TestDetail) ∈ ds := by
  obtain ⟨ds, h1, h2⟩ := @extract_details_entry
    [("testFailures", .arr [.obj
      [("testName", .str "testFoo"), ("testIdentifierString", .str "SuiteA/testFoo"),
       ("failureText", .str "expected true")]])]
    [.obj [("testName", .str "testFoo"), ("testIdentifierString", .str "SuiteA/testFoo"),
       ("failureText", .str "expected true")]]
    [("testName", .str "testFoo"), ("testIdentifierString", .str "SuiteA/testFoo"),
       ("failureText", .str "expected true")]
    "testFoo" "SuiteA/testFoo" "expected true" ""
    rfl (List.mem_singleton.mpr rfl) rfl (by decide) rfl (by decide) rfl rfl
  refine ⟨ds, h1, ?_⟩
  have heq : (⟨"testFoo", "Failed", "SuiteA", "expected true", "SuiteA/testFoo"⟩ : TestDetail) =
      ⟨"testFoo", "Failed", suiteOf "SuiteA/testFoo" "", strTake "expected true" 100,
        "SuiteA/testFoo"⟩ := by decide
  rw [heq]
  exact h2

/-- C6 counterexample: the claim as stated says the suite is the
second-to-last slash segment whenever the identifier contains a
slash; but for identifier `"/t"` that segment is empty and the code
falls back to the target name `"M"` instead. -/
theorem extract_details_empty_segment_counterexample :
    extractDetailsFromSummary (.obj [("testFailures", .arr [.obj
      [("testName", .str "t"), ("testIdentifierString", .str "/t"),
       ("targetName", .str "M")]])]) =
      some [⟨"t", "Failed", "M", "", "/t"⟩] ∧
    (⟨(splitOnChar '/' "/t".data).getD ((splitOnChar '/' "/t".data).length - 2) []⟩ : String)
      = "" ∧ ("M" : String) ≠ "" := by
  refine ⟨by decide, by decide, by decide⟩

theorem find?_first {α : Type _} (p : α → Bool) :
    ∀ (pre : List α) (x : α) (post : List α), (∀ y ∈ pre, p y = false) → p x = true →
      (pre ++ x :: post).find? p = some x
  | [], x, post, _, hx => by simp [List.find?, hx]
  | h :: t, x, post, hpre, hx => by
    have hh : p h = false := hpre h (List.mem_cons_self h t)
    rw [List.cons_append, List.find?, hh]
    exact find?_first p t x post (fun y hy => hpre y (List.mem_cons_of_mem h hy)) hx

/-- C9 (amended): an entry keyed by the exact test identifier with a
non-empty file list always wins; when there is no such entry, the map
keys are scanned in insertion order and the first key satisfying any
of the three fallback criteria (substring containment, suffix, or
last-segment equality) wins, regardless of which criterion matched;
the strip is dropped when the selected list is empty. -/
theorem selectScreenshots_first_match (m : List (String × List String)) (tid : String) :
    (∀ v, sget m tid = some v → v ≠ [] → selectScreenshots m tid = some v) ∧
    (∀ pre k v post, m = pre ++ (k, v) :: post →
      (sget m tid).getD [] = [] →
      (∀ p ∈ pre, shotKeyMatch tid p.1 = false) →
      shotKeyMatch tid k = true →
      selectScreenshots m tid = if v.isEmpty then none else some v) := by
  constructor
  · intro v hv hne
    rw [selectScreenshots, hv]
    have he : v.isEmpty = false := by
      cases v with
      | nil => exact absurd rfl hne
      | cons a t => rfl
    simp [he]
  · intro pre k v post hsplit hdirect hpre hk
    have hfind : findShotKey m tid = some v := by
      rw [findShotKey, hsplit]
      rw [find?_first (fun p => shotKeyMatch tid p.1) pre (k, v) post hpre hk]
      rfl
    rw [selectScreenshots, hdirect, hfind]
    simp only [List.isEmpty_nil, Bool.not_true, Bool.false_eq_true, if_false, Option.getD_some]
    cases v with
    | nil => rfl
    | cons a t => rfl

/-- Witness for `selectScreenshots_first_match`: exact match on a
one-entry map, and fallback first-match on a one-entry map whose key
matches only by last-segment equality. -/
theorem selectScreenshots_first_match_witness :
    selectScreenshots [("a", ["x.png"])] "a" = some ["x.png"] ∧
    selectScreenshots [("x/t", ["p1.png"])] "A/t" =
      (if (["p1.png"] : List String).isEmpty then none else some ["p1.png"]) := by
  constructor
  · exact (selectScreenshots_first_match [("a", ["x.png"])] "a").1 ["x.png"] rfl (by decide)
  · exact (selectScreenshots_first_match [("x/t", ["p1.png"])] "A/t").2 [] "x/t" ["p1.png"] []
      rfl (by decide) (by simp) (by decide)

/-- C9 counterexample: the three-tier priority of the claim (containment /
suffix before last-segment equality) is not what the code implements;
the scan is per-key in insertion order with the criteria disjoined,
so an earlier key matching only by last segment beats a later key
matching by containment. -/
theorem selectScreenshots_tier_counterexample :
    selectScreenshots [("x/t", ["p1.png"]), ("zA/t", ["p2.png"])] "A/t" = some ["p1.png"] ∧
    selectScreenshotsSpec [("x/t", ["p1.png"]), ("zA/t", ["p2.png"])] "A/t" = some ["p2.png"] ∧
    (["p1.png"] : List String) ≠ ["p2.png"] := by
  refine ⟨by decide, by decide, by decide⟩

theorem startsL_self_append : ∀ (l r : List Char), startsL l (l ++ r) = true
  | [], _ => rfl
  | c :: cs, r => by
    rw [List.cons_append, startsL]
    simp [startsL_self_append cs r]

theorem hasSubL_self_append (needle B : List Char) : hasSubL needle (needle ++ B) = true := by
  cases h : needle ++ B with
  | nil =>
    have hn : needle = [] := by
      cases needle with
      | nil => rfl
      | cons c cs => simp at h
    rw [hn]
    rfl
  | cons c t =>
    rw [hasSubL]
    have hs : startsL needle (c :: t) = true := h ▸ startsL_self_append needle B
    rw [hs]
    simp

theorem hasSubL_cons {needle t : List Char} (c : Char) (h : hasSubL needle t = true) :
    hasSubL needle (c :: t) = true := by
  rw [hasSubL, h]
  simp

theorem hasSubL_append_left {needle B : List Char} :
    ∀ (A : List Char), hasSubL needle B = true → hasSubL needle (A ++ B) = true
  | [], h => h
  | c :: cs, h => by
    rw [List.cons_append]
    exact hasSubL_cons c (hasSubL_append_left cs h)

/-- A list that splits around `needle` contains `needle`. -/
theorem hasSubL_between (A needle B hay : List Char) (h : hay = A ++ (needle ++ B)) :
    hasSubL needle hay = true :=
  h ▸ hasSubL_append_left A (hasSubL_self_append needle B)

set_option maxRecDepth 4000 in
/-- C1 exhibit: `build_html` embeds the test name of a detail record into
the report raw, as shown by the concrete split of the rendered
document around the unescaped name. -/
theorem build_html_raw_interpolation :
    strContains (build_html 1 2 0 "r.xcresult" "T"
      (some [⟨"<b>x</b>", "Failed", "S", "", "S/t"⟩]) none none) "<b>x</b>" = true := by
  rw [strContains]
  apply hasSubL_between
    (hH0 ++ "T" ++ hH1 ++ "T" ++ hH2 ++ intStr 3 ++ hH3 ++ intStr 1 ++ hH4 ++ intStr 2 ++
      hH5 ++ intStr 0 ++ hH6 ++ "r.xcresult" ++ hH7 ++ hD0 ++
      "Best-effort list of tests discovered in the xcresult summary. Screenshots and other rich attachments are not included." ++
      hD1 ++ hTheadClose ++ hR0).data
    _
    (hR1 ++ "S" ++ hR2 ++ "#ef4444" ++ hR3 ++ "Failed" ++ hR4 ++ hRowClose ++ hTbodyClose ++
      hT0 ++ intStr 1 ++ hT1 ++ intStr 2 ++ hT2 ++ intStr 0 ++ hT3).data
  simp [build_html, detailsHtml, rowHtml, statusColor, truthyOptList, truthyOptStr,
    truthyOptMap, String.join, String.data_append, List.append_assoc]

theorem digitChar_isDigit {d : Nat} (h : d < 10) : (Nat.digitChar d).isDigit = true := by
  interval_cases d <;> decide

theorem digitVal_digitChar {d : Nat} (h : d < 10) : digitVal (Nat.digitChar d) = d := by
  interval_cases d <;> decide

theorem natStrAux_shift : ∀ (fuel n : Nat) (acc : List Char),
    natStrAux fuel n acc = natStrAux fuel n [] ++ acc
  | 0, _, _ => rfl
  | fuel + 1, n, acc => by
    rw [natStrAux, natStrAux]
    by_cases h : n < 10
    · simp [h]
    · simp only [h, if_false]
      rw [natStrAux_shift fuel (n / 10) (Nat.digitChar (n % 10) :: acc),
        natStrAux_shift fuel (n / 10) [Nat.digitChar (n % 10)]]
      simp

theorem natStrAux_all_digits : ∀ (fuel n : Nat) (c : Char),
    c ∈ natStrAux fuel n [] → c.isDigit = true
  | 0, _, c, hc => by simp [natStrAux] at hc
  | fuel + 1, n, c, hc => by
    rw [natStrAux] at hc
    by_cases h : n < 10
    · rw [if_pos h] at hc
      simp at hc
      rw [hc]
      exact digitChar_isDigit h
    · rw [if_neg h] at hc
      rw [natStrAux_shift] at hc
      rcases List.mem_append.mp hc with h1 | h1
      · exact natStrAux_all_digits fuel (n / 10) c h1
      · simp at h1
        rw [h1]
        exact digitChar_isDigit (Nat.mod_lt n (by omega))

theorem natStrAux_ne_nil (fuel n : Nat) : natStrAux (fuel + 1) n [] ≠ [] := by
  rw [natStrAux]
  by_cases h : n < 10
  · simp [h]
  · rw [if_neg h, natStrAux_shift]
    simp

theorem decimalVal_natStrAux : ∀ (fuel n : Nat), n < 10 ^ (fuel + 1) →
    decimalVal (natStrAux (fuel + 1) n []) = n
  | 0, n, hn => by
    have h : n < 10 := by simpa using hn
    rw [natStrAux, if_pos h]
    simp [decimalVal, digitVal_digitChar h]
  | fuel + 1, n, hn => by
    rw [natStrAux]
    by_cases h : n < 10
    · rw [if_pos h]
      simp [decimalVal, digitVal_digitChar h]
    · rw [if_neg h, natStrAux_shift]
      have hdiv : n / 10 < 10 ^ (fuel + 1) := by
        apply Nat.div_lt_of_lt_mul
        rw [pow_succ] at hn
        omega
      rw [decimalVal, List.foldl_append]
      rw [← decimalVal, decimalVal_natStrAux fuel (n / 10) hdiv]
      simp [List.foldl, digitVal_digitChar (Nat.mod_lt n (by omega) : n % 10 < 10)]
      omega

theorem natStrL_all_digits {n : Nat} {c : Char} (hc : c ∈ natStrL n) : c.isDigit = true :=
  natStrAux_all_digits (n + 1) n c hc

theorem natStrL_ne_nil (n : Nat) : natStrL n ≠ [] := natStrAux_ne_nil n n

theorem decimalVal_natStrL (n : Nat) : decimalVal (natStrL n) = n := by
  have hb : n < 10 ^ (n + 1) := by
    calc n < 10 ^ n := Nat.lt_pow_self (by omega) n
    _ ≤ 10 ^ (n + 1) := Nat.pow_le_pow_right (by omega) (by omega)
  exact decimalVal_natStrAux n n hb

theorem headNotDigit_append (l X : List Char) (h1 : headNotDigit l = true) (h2 : l ≠ []) :
    headNotDigit (l ++ X) = true := by
  cases l with
  | nil => exact absurd rfl h2
  | cons c cs => exact h1

theorem readNatAux_spec : ∀ (ds rest : List Char) (acc : Nat),
    (∀ c ∈ ds, c.isDigit = true) → headNotDigit rest = true →
    readNatAux (ds ++ rest) acc = (ds.foldl (fun a c => a * 10 + digitVal c) acc, rest)
  | [], rest, acc, _, hrest => by
    cases rest with
    | nil => rfl
    | cons c cs =>
      rw [List.nil_append, readNatAux]
      have : c.isDigit = false := by
        have := hrest
        rw [headNotDigit] at this
        simpa using this
      simp [this, List.foldl]
  | d :: ds, rest, acc, hds, hrest => by
    rw [List.cons_append, readNatAux]
    have hd : d.isDigit = true := hds d (List.mem_cons_self d ds)
    rw [if_pos hd, List.foldl_cons]
    exact readNatAux_spec ds rest _ (fun c hc => hds c (List.mem_cons_of_mem d hc)) hrest

theorem readNat?_natStrL (n : Nat) (rest : List Char) (hrest : headNotDigit rest = true) :
    readNat? (natStrL n ++ rest) = some (n, rest) := by
  obtain ⟨c, cs, hcons⟩ := List.exists_cons_of_ne_nil (natStrL_ne_nil n)
  have hcd : c.isDigit = true := natStrL_all_digits (by rw [hcons]; exact List.mem_cons_self c cs)
  have hall : ∀ x ∈ c :: cs, x.isDigit = true := by
    intro x hx
    exact natStrL_all_digits (by rw [hcons]; exact hx)
  rw [hcons, List.cons_append, readNat?, if_pos hcd, ← List.cons_append,
    readNatAux_spec (c :: cs) rest 0 hall hrest]
  have : (c :: cs).foldl (fun a ch => a * 10 + digitVal ch) 0 = decimalVal (natStrL n) := by
    rw [decimalVal, hcons]
  rw [this, decimalVal_natStrL]

theorem dropLit?_append : ∀ (a b : List Char), dropLit? a (a ++ b) = some b
  | [], b => rfl
  | c :: cs, b => by
    rw [List.cons_append, dropLit?]
    simp [dropLit?_append cs b]

theorem intStr_ofNat_data (n : Nat) : (intStr (n : Int)).data = natStrL n := by
  show intStrL (n : Int) = natStrL n
  rw [intStrL, if_neg (by omega)]
  simp

theorem headNotDigit_hH3 (X : List Char) : headNotDigit (hH3.data ++ X) = true :=
  headNotDigit_append _ X (by decide) (by decide)

theorem headNotDigit_hH4 (X : List Char) : headNotDigit (hH4.data ++ X) = true :=
  headNotDigit_append _ X (by decide) (by decide)

theorem headNotDigit_hH5 (X : List Char) : headNotDigit (hH5.data ++ X) = true :=
  headNotDigit_append _ X (by decide) (by decide)

theorem headNotDigit_hH6 (X : List Char) : headNotDigit (hH6.data ++ X) = true :=
  headNotDigit_append _ X (by decide) (by decide)

theorem headNotDigit_hT1 (X : List Char) : headNotDigit (hT1.data ++ X) = true :=
  headNotDigit_append _ X (by decide) (by decide)

theorem headNotDigit_hT2 (X : List Char) : headNotDigit (hT2.data ++ X) = true :=
  headNotDigit_append _ X (by decide) (by decide)

theorem headNotDigit_hT3 : headNotDigit hT3.data = true := by decide

theorem parseHeader_spec (title : String) (R : List Char) :
    parseHeader title (hH0.data ++ (title.data ++ (hH1.data ++ (title.data ++
      (hH2.data ++ R))))) = some R := by
  simp [parseHeader, dropLit?_append]

theorem parseKpis_spec (t p f s : Nat) (R : List Char) (hR : headNotDigit R = true) :
    parseKpis (natStrL t ++ (hH3.data ++ (natStrL p ++ (hH4.data ++ (natStrL f ++
      (hH5.data ++ (natStrL s ++ R))))))) = some ((p, f, s), R) := by
  rw [parseKpis]
  rw [readNat?_natStrL t _ (headNotDigit_hH3 _)]
  simp only [Option.some_bind]
  rw [dropLit?_append]
  simp only [Option.some_bind]
  rw [readNat?_natStrL p _ (headNotDigit_hH4 _)]
  simp only [Option.some_bind]
  rw [dropLit?_append]
  simp only [Option.some_bind]
  rw [readNat?_natStrL f _ (headNotDigit_hH5 _)]
  simp only [Option.some_bind]
  rw [dropLit?_append]
  simp only [Option.some_bind]
  rw [readNat?_natStrL s _ hR]
  simp only [Option.some_bind]

theorem parseMid_spec (source_name : String) (R : List Char) :
    parseMid source_name (hH6.data ++ (source_name.data ++ (hH7.data ++
      (hT0.data ++ R)))) = some R := by
  simp [parseMid, dropLit?_append]

theorem parseChart_spec (p f s : Nat) :
    parseChart (natStrL p ++ (hT1.data ++ (natStrL f ++ (hT2.data ++
      (natStrL s ++ hT3.data))))) = some (p, f, s) := by
  rw [parseChart]
  rw [readNat?_natStrL p _ (headNotDigit_hT1 _)]
  simp only [Option.some_bind]
  rw [dropLit?_append]
  simp only [Option.some_bind]
  rw [readNat?_natStrL f _ (headNotDigit_hT2 _)]
  simp only [Option.some_bind]
  rw [dropLit?_append]
  simp only [Option.some_bind]
  rw [readNat?_natStrL s _ headNotDigit_hT3]
  simp only [Option.some_bind]
  have hself : dropLit? hT3.data hT3.data = some [] := by
    have h := dropLit?_append hT3.data []
    rwa [List.append_nil] at h
  rw [hself]
  simp only [Option.some_bind]

set_option maxRecDepth 20000 in
/-- C8: round-trip — rendering a CountTriple with `build_html` (no
details section) and re-parsing the numerals embedded in the produced
HTML yields the same triple, both from the passed/failed/skipped KPI
numerals and from the chart data array. -/
theorem build_html_roundtrip (p f s : Nat) (title source_name : String) :
    parseReport title source_name
      (build_html (p : Int) (f : Int) (s : Int) source_name title none none none) =
      some ((p, f, s), (p, f, s)) := by
  have hcast : ((p : Int) + (f : Int) + (s : Int)) = ((p + f + s : Nat) : Int) := by
    push_cast
    ring
  have hdata : (build_html (p : Int) (f : Int) (s : Int) source_name title none none none).data =
      hH0.data ++ (title.data ++ (hH1.data ++ (title.data ++ (hH2.data ++
      (natStrL (p + f + s) ++ (hH3.data ++ (natStrL p ++ (hH4.data ++ (natStrL f ++
      (hH5.data ++ (natStrL s ++ (hH6.data ++ (source_name.data ++ (hH7.data ++
      (hT0.data ++ (natStrL p ++ (hT1.data ++ (natStrL f ++ (hT2.data ++
      (natStrL s ++ hT3.data)))))))))))))))))))) := by
    have hdet : (if truthyOptList (none : Option (List TestDetail)) = true then
        detailsHtml ((none : Option (List TestDetail)).getD []) none none else "") = "" := rfl
    have hempty : ("" : String).data = [] := rfl
    simp only [build_html, hdet, hcast, intStr_ofNat_data, String.data_append, hempty,
      List.nil_append, List.append_assoc]
  rw [parseReport, hdata, parseHeader_spec]
  simp only [Option.some_bind]
  rw [parseKpis_spec (p + f + s) p f s _ (headNotDigit_hH6 _)]
  simp only [Option.some_bind]
  rw [parseMid_spec]
  simp only [Option.some_bind]
  rw [parseChart_spec]
  simp only [Option.some_bind]

/-- C7: (1) when extraction yields no usable text, the pipeline
aborts with an extraction error whose message contains the attempted
command and the captured stderr, and no artifact is produced; (2) a
JSON parse failure aborts with the distinct parse-error kind; (3) the
two error kinds are distinct; (4) whenever extraction and parsing
succeed the pipeline succeeds — zero counts or missing details never
fail it. -/
theorem processXcresult_spec (errText cmdText : String)
    (parse : String → Except String JVal)
    (exportResult : Option String × Option (List (String × List String)))
    (reportTitle : Option String) (includeDetails includeScreenshots : Bool)
    (sourceName : String) :
    (∀ jsonStr, truthyOptStr jsonStr = false → cmdText ≠ "" → pyStrip errText ≠ "" →
      ∃ msg, processXcresult jsonStr errText cmdText parse exportResult reportTitle
          includeDetails includeScreenshots sourceName = .error (.extractionEmpty msg) ∧
        strContains msg cmdText = true ∧ strContains msg (pyStrip errText) = true) ∧
    (∀ s e, truthyOptStr (some s) = true → parse s = .error e →
      processXcresult (some s) errText cmdText parse exportResult reportTitle
          includeDetails includeScreenshots sourceName =
        .error (.jsonParseError ("Failed to parse JSON summary: " ++ e))) ∧
    (∀ m m', ProcError.extractionEmpty m ≠ ProcError.jsonParseError m') ∧
    (∀ s data, truthyOptStr (some s) = true → parse s = .ok data →
      ∃ out, processXcresult (some s) errText cmdText parse exportResult reportTitle
          includeDetails includeScreenshots sourceName = .ok out ∧
        out.counts = extract_counts data) := by
  refine ⟨?_, ?_, ?_, ?_⟩
  · intro jsonStr hjs hcmd herr
    rw [processXcresult, hjs]
    simp only [Bool.false_eq_true, if_false]
    refine ⟨_, rfl, ?_, ?_⟩
    · rw [strContains]
      apply hasSubL_between
        ("Failed to extract summary from xcresult.\n\n".data ++ "Command: ".data) _
        ("\n\n".data ++
          (if pyStrip errText = "" then "No error output captured."
           else "Error output:\n" ++ pyStrip errText ++ "\n").data)
      rw [if_neg hcmd]
      simp [String.data_append, List.append_assoc]
    · rw [strContains]
      apply hasSubL_between
        (("Failed to extract summary from xcresult.\n\n" ++
          (if cmdText = "" then "" else "Command: " ++ cmdText ++ "\n\n")).data ++
          "Error output:\n".data) _
        ("\n".data)
      rw [if_neg herr]
      simp [String.data_append, List.append_assoc]
  · intro s e hs hparse
    rw [processXcresult, hs]
    simp only [if_true, Option.getD_some]
    rw [hparse]
  · intro m m'
    simp
  · intro s data hs hparse
    rw [processXcresult, hs]
    simp only [if_true, Option.getD_some]
    rw [hparse]
    exact ⟨_, rfl, rfl⟩

/-- Witness for `processXcresult_spec` at a concrete invocation:
extraction empty with a real command and stderr; a parse failure; and
a successful run whose counts are all zero. -/
theorem processXcresult_spec_witness :
    (∃ msg, processXcresult none "boom" "xcrun xcresulttool get test-results summary"
        (fun s => if s = "\x7b\x7d" then Except.ok (JVal.obj []) else Except.error "Expecting value")
        (none, none) none false false "r.xcresult" =
        .error (.extractionEmpty msg) ∧
      strContains msg "xcrun xcresulttool get test-results summary" = true ∧
      strContains msg (pyStrip "boom") = true) ∧
    (processXcresult (some "bad") "boom" "xcrun xcresulttool get test-results summary"
        (fun s => if s = "\x7b\x7d" then Except.ok (JVal.obj []) else Except.error "Expecting value")
        (none, none) none false false "r.xcresult" =
        .error (.jsonParseError ("Failed to parse JSON summary: " ++ "Expecting value"))) ∧
    (∃ out, processXcresult (some "\x7b\x7d") "boom" "xcrun xcresulttool get test-results summary"
        (fun s => if s = "\x7b\x7d" then Except.ok (JVal.obj []) else Except.error "Expecting value")
        (none, none) none false false "r.xcresult" = .ok out ∧
      out.counts = extract_counts (.obj [])) := by
  refine ⟨?_, ?_, ?_⟩
  · exact (processXcresult_spec "boom" "xcrun xcresulttool get test-results summary"
      (fun s => if s = "\x7b\x7d" then Except.ok (JVal.obj []) else Except.error "Expecting value")
      (none, none) none false false "r.xcresult").1 none (by decide) (by decide) (by decide)
  · exact (processXcresult_spec "boom" "xcrun xcresulttool get test-results summary"
      (fun s => if s = "\x7b\x7d" then Except.ok (JVal.obj []) else Except.error "Expecting value")
      (none, none) none false false "r.xcresult").2.1 "bad" "Expecting value" (by decide) rfl
  · exact (processXcresult_spec "boom" "xcrun xcresulttool get test-results summary"
      (fun s => if s = "\x7b\x7d" then Except.ok (JVal.obj []) else Except.error "Expecting value")
      (none, none) none false false "r.xcresult").2.2.2 "\x7b\x7d" (.obj []) (by decide) rfl
